import Mathlib

/-!
Shallow embedding of the configuration-retrieval code of the
`angular-config-blog` repository:

* `ConfigService.getConfig` (src/config-demo/src/app/config.service.ts)
* `ServerTimeService.getTime` (src/config-demo/src/app/server-time.service.ts)
* the `DOMContentLoaded` startup listener (src/config-demo/src/main.ts)
* the `/config` endpoint of the webpack proxy configuration
  (src/unnamed/part_005, `PROXY_CONFIG['/config'].bypass`)

JavaScript strings are modelled as Lean `String`, JavaScript objects holding
configuration values as association lists preserving key order, and the
process environment as a partial map `String → Option String` (environment
variable values are always strings; an absent variable reads as `undefined`).
The demo's configuration numbers (debounce times, HTTP statuses) are
non-negative integers, modelled as `Nat`.

Effects are made explicit: a `World` carries the environment, an oracle
giving the outcome of each successive network read, the number of network
reads issued so far, and a log of the URLs requested.  A call such as
`getConfig` is a function from `World` to result × `World`; the single-
threaded event loop makes a sequence of calls a left-to-right fold.
-/

set_option autoImplicit false

/-- A JavaScript value as it appears in the demo's configuration objects:
a string, a (non-negative integer) number, or `undefined`. -/
inductive JsValue where
  | str (s : String)
  | num (n : Nat)
  | undef
  deriving DecidableEq, Repr

/-- A configuration bundle: a JavaScript object mapping configuration keys to
values, modelled as an association list in key order. -/
def ConfigBundle := List (String × JsValue)

instance : DecidableEq ConfigBundle := by
  unfold ConfigBundle
  infer_instance

/-- The outcome of one network read (`fetch` / `HttpClient.get`): either a
transport-level failure, or an HTTP response with a status and a body text. -/
inductive FetchOutcome where
  | networkError (cause : String)
  | response (status : Nat) (body : String)
  deriving DecidableEq, Repr

/-- The error with which a client-path resolution rejects, carrying the
underlying cause: a transport failure, a failure HTTP status, or a response
body that is not a valid configuration object. -/
inductive ConfigResolutionError where
  | network (cause : String)
  | httpStatus (status : Nat)
  | malformedBody (body : String)
  deriving DecidableEq, Repr

/-- The explicit state a call runs in: the process environment, the oracle of
network-read outcomes (the `k`-th read issued in this world observes
`fetch k`), how many reads have been issued, and the log of requested URLs. -/
structure World where
  env : String → Option String
  fetch : Nat → FetchOutcome
  fetchCount : Nat
  requests : List String

/-! ### A parser for the flat JSON bodies exchanged by the demo

`HttpClient.get` and `JSON.parse` turn a response body into a JavaScript
object.  The demo only ever exchanges flat objects whose values are strings
or numbers (`{"DEBOUNCE_TIME":300}`, `{"servertime":"..."}`), so the body
parser is modelled for exactly that shape; anything else is malformed. -/

/-- Scan a JSON string literal's characters up to the closing quote
(the demo's strings contain no escape sequences). -/
def scanString : List Char → Option (List Char × List Char)
  | [] => none
  | c :: rest =>
    if c = '"' then some ([], rest)
    else (scanString rest).map (fun p => (c :: p.1, p.2))

/-- Parse a JSON string literal, returning its contents and the rest. -/
def parseStringLit : List Char → Option (String × List Char)
  | '"' :: rest => (scanString rest).map (fun p => (String.mk p.1, p.2))
  | _ => none

/-- Split off the longest prefix of decimal digits. -/
def takeDigits : List Char → List Char × List Char
  | [] => ([], [])
  | c :: rest =>
    if c.isDigit then
      let p := takeDigits rest
      (c :: p.1, p.2)
    else ([], c :: rest)

/-- Numeric value of a list of decimal digit characters. -/
def charsToNat (cs : List Char) : Nat :=
  cs.foldl (fun a c => a * 10 + (c.toNat - 48)) 0

/-- Parse a JSON value of the shapes the demo exchanges: a string literal or
a non-negative decimal number. -/
def parseValue : List Char → Option (JsValue × List Char)
  | [] => none
  | c :: rest =>
    if c = '"' then (scanString rest).map (fun p => (JsValue.str (String.mk p.1), p.2))
    else if c.isDigit then
      let p := takeDigits (c :: rest)
      some (JsValue.num (charsToNat p.1), p.2)
    else none

/-- Parse the `"key":value` pairs of a flat JSON object, up to and including
the closing brace.  `fuel` bounds the recursion; each pair consumes at least
one character, so any `fuel` at or above the input length suffices. -/
def parsePairs : Nat → List Char → Option (List (String × JsValue) × List Char)
  | 0, _ => none
  | Nat.succ fuel, cs =>
    match parseStringLit cs with
    | none => none
    | some (key, rest1) =>
      match rest1 with
      | ':' :: rest2 =>
        match parseValue rest2 with
        | none => none
        | some (v, rest3) =>
          match rest3 with
          | ',' :: rest4 =>
            match parsePairs fuel rest4 with
            | none => none
            | some (ps, rest5) => some ((key, v) :: ps, rest5)
          | '\x7d' :: rest4 => some ([(key, v)], rest4)
          | _ => none
      | _ => none

/-- `JSON.parse` as applied to a response body expected to be a flat
configuration object; `none` models a parse failure (malformed body). -/
def parseBundle (s : String) : Option ConfigBundle :=
  match s.data with
  | '\x7b' :: rest =>
    if rest = ['\x7d'] then some []
    else
      match parsePairs rest.length rest with
      | some (ps, []) => some ps
      | _ => none
  | _ => none

/-! ### The modelled HTTP client (external collaborator)

Angular's `HttpClient` is a framework dependency, not code of this
repository.  Modelled from the spec: the external-interface section states
that the `/config` response is a JSON object of configuration values and
that "any HTTP status other than 200 is treated as failure", and the
error-handling section states that transport failures, failure statuses and
malformed bodies all surface to the caller carrying the underlying cause. -/

/-- Modelled from the spec: an `HttpClient.get` observing a given fetch
outcome — a non-200 status or an unparsable body is a failure, a parsed
body is the success value, and every failure carries its cause. -/
def httpClientGet (o : FetchOutcome) : Except ConfigResolutionError ConfigBundle :=
  match o with
  | FetchOutcome.networkError cause => Except.error (ConfigResolutionError.network cause)
  | FetchOutcome.response status body =>
    if status = 200 then
      match parseBundle body with
      | some bundle => Except.ok bundle
      | none => Except.error (ConfigResolutionError.malformedBody body)
    else Except.error (ConfigResolutionError.httpStatus status)

/-! ### ConfigService.getConfig (src/config-demo/src/app/config.service.ts) -/

/-- The object literal the server path returns:
`{ DEBOUNCE_TIME: process.env.DEBOUNCE_TIME }` — the raw environment string,
or `undefined` when the variable is absent; no default is applied here. -/
def serverBundle (env : String → Option String) : ConfigBundle :=
  [("DEBOUNCE_TIME",
    match env "DEBOUNCE_TIME" with
    | some s => JsValue.str s
    | none => JsValue.undef)]

/-- `ConfigService.getConfig()`: on the server platform, return the
environment-read bundle (an `of(...)` observable, which never errors and
performs no network read); otherwise issue one HTTP GET of `/config` and
return its outcome.  The service holds no state between calls. -/
def getConfig (platformIsServer : Bool) (w : World) :
    Except ConfigResolutionError ConfigBundle × World :=
  if platformIsServer then
    (Except.ok (serverBundle w.env), w)
  else
    (httpClientGet (w.fetch w.fetchCount),
     { w with
        fetchCount := w.fetchCount + 1
        requests := w.requests ++ ["/config"] })

/-- A sequence of `n` successive `getConfig()` calls on the single-threaded
event loop, returning the list of observed results (in call order) and the
final world. -/
def runCalls (platformIsServer : Bool) (w : World) : Nat →
    List (Except ConfigResolutionError ConfigBundle) × World
  | 0 => ([], w)
  | Nat.succ n =>
    let r := getConfig platformIsServer w
    let rs := runCalls platformIsServer r.2 n
    (r.1 :: rs.1, rs.2)

/-- The result of the `i`-th call (0-based) in a run starting from `w`: on
the server platform the environment bundle, on the client the outcome of the
`i`-th network read issued from `w` — a whole bundle built from that read
alone. -/
def resolveAt (platformIsServer : Bool) (w : World) (i : Nat) :
    Except ConfigResolutionError ConfigBundle :=
  if platformIsServer then Except.ok (serverBundle w.env)
  else httpClientGet (w.fetch (w.fetchCount + i))

/-! ### ServerTimeService.getTime
(src/config-demo/src/app/server-time.service.ts) -/

/-- JavaScript string concatenation `process.env.X + path`: an absent
environment variable is `undefined` and coerces to the text "undefined". -/
def jsConcatEnv (o : Option String) (path : String) : String :=
  (match o with
   | some s => s
   | none => "undefined") ++ path

/-- JavaScript property access `data.k` on a parsed object: the value under
the first occurrence of the key, or `undefined` when the key is absent. -/
def jsGet (b : ConfigBundle) (k : String) : JsValue :=
  match List.lookup k b with
  | some v => v
  | none => JsValue.undef

/-- `ServerTimeService.getTime()`: choose the URL by platform — the absolute
URL `process.env.API_SERVER + '/api/servertime'` on the server, the relative
path `/api/servertime` in the browser — issue one GET of it, and map the
response object to its `servertime` field. -/
def getTime (platformIsServer : Bool) (w : World) :
    Except ConfigResolutionError JsValue × World :=
  let path := "/api/servertime"
  let url := if platformIsServer then jsConcatEnv (w.env "API_SERVER") path else path
  ((httpClientGet (w.fetch w.fetchCount)).map (fun data => jsGet data "servertime"),
   { w with
      fetchCount := w.fetchCount + 1
      requests := w.requests ++ [url] })

/-! ### The pre-bootstrap startup routine (src/config-demo/src/main.ts) -/

/-- The browser's local key-value store (`localStorage`); `setItem` makes the
new binding the one `getItem` observes. -/
def LocalStorage := List (String × String)

instance : DecidableEq LocalStorage := by
  unfold LocalStorage
  infer_instance

/-- `localStorage.setItem(k, v)`. -/
def setItem (st : LocalStorage) (k v : String) : LocalStorage :=
  (k, v) :: st

/-- `localStorage.getItem(k)` (null when the key is absent). -/
def getItem (st : LocalStorage) (k : String) : Option String :=
  List.lookup k st

/-- The externally observable steps of the startup routine, in order. -/
inductive StartupEvent where
  | fetchConfig
  | storeWrite (key value : String)
  | bootstrap
  deriving DecidableEq, Repr

/-- The `DOMContentLoaded` listener of `main.ts`: fetch `/config`; only when
the status is exactly 200, read the body text, persist it under the local
storage key `config`, and then bootstrap the application module.  On any
other status — or a transport failure, which rejects the awaited promise —
nothing further happens. -/
def mainStartup (o : FetchOutcome) (st : LocalStorage) :
    List StartupEvent × LocalStorage :=
  match o with
  | FetchOutcome.networkError _ => ([StartupEvent.fetchConfig], st)
  | FetchOutcome.response status body =>
    if status = 200 then
      ([StartupEvent.fetchConfig, StartupEvent.storeWrite "config" body,
        StartupEvent.bootstrap],
       setItem st "config" body)
    else ([StartupEvent.fetchConfig], st)

/-! ### The `/config` proxy endpoint (src/unnamed/part_005) -/

/-- JavaScript `x || d` on an environment read: `undefined` and the empty
string are falsy, so both fall back to the default number `d`. -/
def jsOrDefault (o : Option String) (d : Nat) : JsValue :=
  match o with
  | some s => if s = "" then JsValue.num d else JsValue.str s
  | none => JsValue.num d

/-- `JSON.stringify` of a flat configuration object as the demo produces it:
keys and string values are quoted verbatim (the demo's values need no
escaping), numbers in decimal; properties whose value is `undefined` are
omitted, as `JSON.stringify` does. -/
def jsonStringifyFlat (b : ConfigBundle) : String :=
  "\x7b" ++
    String.intercalate ","
      ((b.filter (fun p => p.2 ≠ JsValue.undef)).map
        (fun p => "\"" ++ p.1 ++ "\":" ++
          match p.2 with
          | JsValue.str s => "\"" ++ s ++ "\""
          | JsValue.num n => toString n
          | JsValue.undef => "")) ++
  "\x7d"

/-- The `bypass` function of `PROXY_CONFIG['/config']`: for a request whose
URL is exactly `/config`, end the response with the stringified object
`{ DEBOUNCE_TIME: process.env.DEBOUNCE_TIME || 500 }`; any other URL falls
through the switch unanswered. -/
def configBypass (reqUrl : String) (env : String → Option String) : Option String :=
  if reqUrl = "/config" then
    some (jsonStringifyFlat [("DEBOUNCE_TIME", jsOrDefault (env "DEBOUNCE_TIME") 500)])
  else none

/-! ### Concrete worlds used to instantiate the theorems -/

/-- The JSON text of the empty object. -/
def emptyObjText : String := "\x7b\x7d"

/-- A world whose first network read gets HTTP 200 with an empty object body
and whose second gets HTTP 500: two reads observe different outcomes. -/
def wTwoCalls : World :=
  { env := fun _ => none
    fetch := fun i => if i = 0 then FetchOutcome.response 200 emptyObjText
                      else FetchOutcome.response 500 ""
    fetchCount := 0
    requests := [] }

/-- A world whose every network read gets HTTP 200 with an empty object body. -/
def wConstOk : World :=
  { env := fun _ => none
    fetch := fun _ => FetchOutcome.response 200 emptyObjText
    fetchCount := 0
    requests := [] }

/-- A world with an empty process environment. -/
def wEnvEmpty : World :=
  { env := fun _ => none
    fetch := fun _ => FetchOutcome.response 200 emptyObjText
    fetchCount := 0
    requests := [] }

/-- A world whose process environment sets `DEBOUNCE_TIME=300` (environment
variable values are strings). -/
def wEnv300 : World :=
  { env := fun k => if k = "DEBOUNCE_TIME" then some "300" else none
    fetch := fun _ => FetchOutcome.response 200 emptyObjText
    fetchCount := 0
    requests := [] }

/-- The body `{"DEBOUNCE_TIME":300}` of the mocked `/config` response. -/
def body300 : String := "\x7b\"DEBOUNCE_TIME\":300\x7d"

/-- A world whose every network read gets HTTP 200 with body
`{"DEBOUNCE_TIME":300}`. -/
def wBody300 : World :=
  { env := fun _ => none
    fetch := fun _ => FetchOutcome.response 200 body300
    fetchCount := 0
    requests := [] }

/-- A world for the server-time example: `API_SERVER` is set and the
`/api/servertime` endpoint answers with a time object. -/
def wTime : World :=
  { env := fun k => if k = "API_SERVER" then some "http://myinternalhost:8080" else none
    fetch := fun _ => FetchOutcome.response 200 "\x7b\"servertime\":\"noon\"\x7d"
    fetchCount := 0
    requests := [] }

/-! ### Helper lemmas on call sequences -/

/-- One client-path call advances the read counter by exactly one and leaves
environment and oracle untouched. -/
theorem getConfig_client_world (w : World) :
    (getConfig false w).2 =
      { w with fetchCount := w.fetchCount + 1, requests := w.requests ++ ["/config"] } := by
  simp [getConfig]

/-- The world after a call still resolves the same outcomes, shifted by one
call: the `i`-th resolution after the call is the `(i+1)`-st before it. -/
theorem resolveAt_step (p : Bool) (w : World) (i : Nat) :
    resolveAt p ((getConfig p w).2) i = resolveAt p w (i + 1) := by
  cases p with
  | true => simp [resolveAt, getConfig]
  | false =>
    have h : w.fetchCount + 1 + i = w.fetchCount + (i + 1) := by omega
    simp [resolveAt, getConfig, h]

/-- The first call's result is the resolution at index 0. -/
theorem getConfig_resolveAt (p : Bool) (w : World) :
    (getConfig p w).1 = resolveAt p w 0 := by
  cases p <;> simp [resolveAt, getConfig]

/-- The `i`-th of `n` successive `getConfig()` calls observes exactly the
`i`-th resolution from the starting world — a value independent of `n`. -/
theorem runCalls_get (p : Bool) :
    ∀ (n i : Nat) (w : World), i < n →
      (runCalls p w n).1.get? i = some (resolveAt p w i)
  | 0, i, _, h => absurd h (Nat.not_lt_zero i)
  | Nat.succ _, 0, w, _ => by
      simp [runCalls, getConfig_resolveAt]
  | Nat.succ n, Nat.succ i, w, h => by
      simp only [runCalls, List.get?]
      rw [runCalls_get p n i _ (Nat.lt_of_succ_lt_succ h), resolveAt_step]

/-- `n` client-path calls issue exactly `n` network reads. -/
theorem runCalls_fetchCount (n : Nat) :
    ∀ w : World, (runCalls false w n).2.fetchCount = w.fetchCount + n := by
  induction n with
  | zero => intro w; simp [runCalls]
  | succ n ih =>
    intro w
    simp only [runCalls]
    rw [ih, getConfig_client_world]
    simp only []
    omega

/-! ### Claims -/

/-- Claim C1, counterexample: `getConfig()` does not coalesce or memoize.
Two successive calls before/after a first resolution issue two network
reads, not one, and when the two reads observe different outcomes the two
callers observe different results. -/
theorem c1_counterexample :
    (runCalls false wTwoCalls 2).2.fetchCount = 2 ∧
    (runCalls false wTwoCalls 2).2.fetchCount ≠ 1 ∧
    (runCalls false wTwoCalls 2).1 =
      [Except.ok [], Except.error (ConfigResolutionError.httpStatus 500)] ∧
    (Except.ok ([] : ConfigBundle) : Except ConfigResolutionError ConfigBundle) ≠
      Except.error (ConfigResolutionError.httpStatus 500) :=
  ⟨rfl, by decide, rfl, fun h => Except.noConfusion h⟩

/-- Claim C1, amended: every `getConfig()` call performs its own resolution —
`n` client-path calls issue exactly `n` network reads (no coalescing, and
calls after a completed resolution re-resolve); all callers observe equal
outcomes exactly when the underlying reads are deterministic, as each call's
result is the outcome of its own read. -/
theorem c1_each_call_resolves (n i : Nat) (w : World)
    (hconst : ∀ k, w.fetch k = w.fetch 0) (hi : i < n) :
    (runCalls false w n).2.fetchCount = w.fetchCount + n ∧
    (runCalls false w n).1.get? i = some (httpClientGet (w.fetch 0)) := by
  refine ⟨runCalls_fetchCount n w, ?_⟩
  rw [runCalls_get false n i w hi]
  simp [resolveAt, hconst]

/-- Witness for C1's amended theorem: with a deterministic endpoint, two
calls issue two reads and the first caller observes the endpoint's outcome. -/
theorem c1_each_call_resolves_witness :
    (runCalls false wConstOk 2).2.fetchCount = wConstOk.fetchCount + 2 ∧
    (runCalls false wConstOk 2).1.get? 0 = some (httpClientGet (wConstOk.fetch 0)) :=
  c1_each_call_resolves 2 0 wConstOk (fun _ => rfl) (by decide)

/-- Claim C2, counterexample: on the server platform with `DEBOUNCE_TIME`
unset, `getConfig()` resolves to a bundle mapping `DEBOUNCE_TIME` to
`undefined`, not to the documented default 500. -/
theorem c2_counterexample :
    (getConfig true wEnvEmpty).1 = Except.ok [("DEBOUNCE_TIME", JsValue.undef)] ∧
    JsValue.undef ≠ JsValue.num 500 :=
  ⟨rfl, by decide⟩

/-- Claim C2, amended: on the server platform with `DEBOUNCE_TIME` unset,
`getConfig()` resolves to a bundle mapping `DEBOUNCE_TIME` to `undefined` —
the server path applies no default; the documented default 500 is applied
only by the `/config` endpoint, which the client path consumes. -/
theorem c2_server_no_default (w : World) (h : w.env "DEBOUNCE_TIME" = none) :
    (getConfig true w).1 = Except.ok [("DEBOUNCE_TIME", JsValue.undef)] ∧
    configBypass "/config" w.env = some "\x7b\"DEBOUNCE_TIME\":500\x7d" ∧
    parseBundle "\x7b\"DEBOUNCE_TIME\":500\x7d" =
      some [("DEBOUNCE_TIME", JsValue.num 500)] := by
  refine ⟨by simp [getConfig, serverBundle, h], ?_, by decide⟩
  have h2 : configBypass "/config" w.env
      = some (jsonStringifyFlat [("DEBOUNCE_TIME", jsOrDefault (w.env "DEBOUNCE_TIME") 500)]) := by
    simp [configBypass]
  rw [h2, h]
  rfl

/-- Witness for C2's amended theorem, at the empty environment. -/
theorem c2_server_no_default_witness :
    wEnvEmpty.env "DEBOUNCE_TIME" = none ∧
    ((getConfig true wEnvEmpty).1 = Except.ok [("DEBOUNCE_TIME", JsValue.undef)] ∧
     configBypass "/config" wEnvEmpty.env = some "\x7b\"DEBOUNCE_TIME\":500\x7d" ∧
     parseBundle "\x7b\"DEBOUNCE_TIME\":500\x7d" =
       some [("DEBOUNCE_TIME", JsValue.num 500)]) :=
  ⟨rfl, c2_server_no_default wEnvEmpty rfl⟩

/-- Claim C3 (confirmed): on the client path, a transport failure, a non-200
status, and a malformed body each reject with the resolution error carrying
its underlying cause; one call issues exactly one read (no automatic retry);
and the call after any call resolves from its own fresh read — no failure
(or success) is cached. -/
theorem c3_failures_not_cached (cause mb bd : String) (s : Nat) (w : World)
    (hs : s ≠ 200) (hmb : parseBundle mb = none) :
    httpClientGet (FetchOutcome.networkError cause)
      = Except.error (ConfigResolutionError.network cause) ∧
    httpClientGet (FetchOutcome.response s bd)
      = Except.error (ConfigResolutionError.httpStatus s) ∧
    httpClientGet (FetchOutcome.response 200 mb)
      = Except.error (ConfigResolutionError.malformedBody mb) ∧
    (getConfig false w).2.fetchCount = w.fetchCount + 1 ∧
    (getConfig false ((getConfig false w).2)).1
      = httpClientGet (w.fetch (w.fetchCount + 1)) := by
  refine ⟨rfl, by simp [httpClientGet, hs], by simp [httpClientGet, hmb],
    by simp [getConfig], by simp [getConfig]⟩

/-- Witness for C3: a refused connection, a 500 response, and the body
"garbage" each reject with their cause, and after the failing first read of
`wTwoCalls` the next call resolves from the second read. -/
theorem c3_failures_not_cached_witness :
    (500 ≠ 200) ∧ parseBundle "garbage" = none ∧
    (httpClientGet (FetchOutcome.networkError "connection refused")
       = Except.error (ConfigResolutionError.network "connection refused") ∧
     httpClientGet (FetchOutcome.response 500 emptyObjText)
       = Except.error (ConfigResolutionError.httpStatus 500) ∧
     httpClientGet (FetchOutcome.response 200 "garbage")
       = Except.error (ConfigResolutionError.malformedBody "garbage") ∧
     (getConfig false wTwoCalls).2.fetchCount = wTwoCalls.fetchCount + 1 ∧
     (getConfig false ((getConfig false wTwoCalls).2)).1
       = httpClientGet (wTwoCalls.fetch (wTwoCalls.fetchCount + 1))) :=
  ⟨by decide, by decide,
   c3_failures_not_cached "connection refused" "garbage" emptyObjText 500 wTwoCalls
     (by decide) (by decide)⟩

/-- Claim C4, counterexample: on the server platform with environment
variable `DEBOUNCE_TIME=300`, `getConfig()` resolves to a bundle mapping
`DEBOUNCE_TIME` to the string "300" (environment values are strings and the
server path converts nothing), not to the number 300. -/
theorem c4_counterexample :
    (getConfig true wEnv300).1 = Except.ok [("DEBOUNCE_TIME", JsValue.str "300")] ∧
    JsValue.str "300" ≠ JsValue.num 300 :=
  ⟨rfl, by decide⟩

/-- Claim C4, amended: on the server platform, `getConfig()` reads the
configuration directly from the process environment and performs no network
read (the world, its read counter and request log included, is unchanged);
with `DEBOUNCE_TIME=300` it resolves to the bundle mapping `DEBOUNCE_TIME`
to the string "300". -/
theorem c4_server_reads_env (w : World) (h : w.env "DEBOUNCE_TIME" = some "300") :
    getConfig true w = (Except.ok [("DEBOUNCE_TIME", JsValue.str "300")], w) := by
  simp [getConfig, serverBundle, h]

/-- Witness for C4's amended theorem, at an environment setting
`DEBOUNCE_TIME=300`. -/
theorem c4_server_reads_env_witness :
    wEnv300.env "DEBOUNCE_TIME" = some "300" ∧
    getConfig true wEnv300 = (Except.ok [("DEBOUNCE_TIME", JsValue.str "300")], wEnv300) :=
  ⟨rfl, c4_server_reads_env wEnv300 rfl⟩

/-- Claim C5 (confirmed): a client-path `getConfig()` call issues exactly one
HTTP GET, to the relative path `/config`, and when the read observes a 200
response with body `{"DEBOUNCE_TIME":300}` it resolves to the bundle mapping
`DEBOUNCE_TIME` to the number 300. -/
theorem c5_client_fetch (w : World)
    (h : w.fetch w.fetchCount = FetchOutcome.response 200 body300) :
    (getConfig false w).2.requests = w.requests ++ ["/config"] ∧
    (getConfig false w).2.fetchCount = w.fetchCount + 1 ∧
    (getConfig false w).1 = Except.ok [("DEBOUNCE_TIME", JsValue.num 300)] := by
  refine ⟨by simp [getConfig], by simp [getConfig], ?_⟩
  have h1 : (getConfig false w).1 = httpClientGet (w.fetch w.fetchCount) := rfl
  rw [h1, h]
  rfl

/-- Witness for C5, at a mocked endpoint answering 200 with
`{"DEBOUNCE_TIME":300}`. -/
theorem c5_client_fetch_witness :
    wBody300.fetch wBody300.fetchCount = FetchOutcome.response 200 body300 ∧
    ((getConfig false wBody300).2.requests = wBody300.requests ++ ["/config"] ∧
     (getConfig false wBody300).2.fetchCount = wBody300.fetchCount + 1 ∧
     (getConfig false wBody300).1 = Except.ok [("DEBOUNCE_TIME", JsValue.num 300)]) :=
  ⟨rfl, c5_client_fetch wBody300 rfl⟩

/-- Claim C6 (confirmed): for every response to the GET of `/config` whose
status is not exactly 200, resolution is a failure and the body is not used
as a bundle — the startup routine of `main.ts` does nothing further, and the
modelled HTTP client rejects with the status as cause. -/
theorem c6_non200_failure (s : Nat) (bd : String) (st : LocalStorage)
    (hs : s ≠ 200) :
    mainStartup (FetchOutcome.response s bd) st = ([StartupEvent.fetchConfig], st) ∧
    httpClientGet (FetchOutcome.response s bd)
      = Except.error (ConfigResolutionError.httpStatus s) := by
  exact ⟨by simp [mainStartup, hs], by simp [httpClientGet, hs]⟩

/-- Witness for C6: a 500 response carrying a perfectly parsable body is
still a failure on both client paths. -/
theorem c6_non200_failure_witness :
    (500 ≠ 200) ∧
    (mainStartup (FetchOutcome.response 500 emptyObjText) []
       = ([StartupEvent.fetchConfig], []) ∧
     httpClientGet (FetchOutcome.response 500 emptyObjText)
       = Except.error (ConfigResolutionError.httpStatus 500)) :=
  ⟨by decide, c6_non200_failure 500 emptyObjText [] (by decide)⟩

/-- Claim C7 (confirmed): the startup routine persists the successful
response body verbatim under the local storage key `config`, so reading the
entry back and deserializing it yields exactly the bundle the response
resolved to. -/
theorem c7_roundtrip (t : String) (b : ConfigBundle) (st : LocalStorage)
    (h : parseBundle t = some b) :
    httpClientGet (FetchOutcome.response 200 t) = Except.ok b ∧
    getItem (mainStartup (FetchOutcome.response 200 t) st).2 "config" = some t ∧
    (getItem (mainStartup (FetchOutcome.response 200 t) st).2 "config").bind parseBundle
      = some b := by
  refine ⟨by simp [httpClientGet, h], rfl, ?_⟩
  exact h

/-- Witness for C7, with the bundle `{"DEBOUNCE_TIME":300}` persisted into an
empty store. -/
theorem c7_roundtrip_witness :
    parseBundle body300 = some [("DEBOUNCE_TIME", JsValue.num 300)] ∧
    (httpClientGet (FetchOutcome.response 200 body300)
       = Except.ok [("DEBOUNCE_TIME", JsValue.num 300)] ∧
     getItem (mainStartup (FetchOutcome.response 200 body300) []).2 "config" = some body300 ∧
     (getItem (mainStartup (FetchOutcome.response 200 body300) []).2 "config").bind parseBundle
       = some [("DEBOUNCE_TIME", JsValue.num 300)]) :=
  ⟨by decide, c7_roundtrip body300 [("DEBOUNCE_TIME", JsValue.num 300)] [] (by decide)⟩

/-- Claim C8 (confirmed): the bundle observed by the `i`-th call is a whole
value built from that call's own resolution alone, and running any number of
further calls leaves it unchanged — no operation mutates a previously
returned bundle, and a new resolution yields a new whole bundle instead of
patching an old one. -/
theorem c8_bundle_immutable (p : Bool) (w : World) (n m i : Nat) (hi : i < n) :
    (runCalls p w n).1.get? i = some (resolveAt p w i) ∧
    (runCalls p w (n + m)).1.get? i = (runCalls p w n).1.get? i := by
  refine ⟨runCalls_get p n i w hi, ?_⟩
  rw [runCalls_get p n i w hi, runCalls_get p (n + m) i w (by omega)]

/-- Witness for C8: the first of two calls' bundle is the resolution at
index 0 and is untouched by a third call. -/
theorem c8_bundle_immutable_witness :
    (0 < 2) ∧
    ((runCalls false wConstOk 2).1.get? 0 = some (resolveAt false wConstOk 0) ∧
     (runCalls false wConstOk (2 + 1)).1.get? 0 = (runCalls false wConstOk 2).1.get? 0) :=
  ⟨by decide, c8_bundle_immutable false wConstOk 2 1 0 (by decide)⟩

/-- Claim C9 (confirmed): `getTime()` requests exactly
`process.env.API_SERVER + '/api/servertime'` on the server platform and
exactly the relative `/api/servertime` in the browser, and resolves to the
`servertime` field projected out of the parsed response body. -/
theorem c9_gettime (w : World) (apiServer : String) (b : ConfigBundle)
    (henv : w.env "API_SERVER" = some apiServer)
    (hok : httpClientGet (w.fetch w.fetchCount) = Except.ok b) :
    (getTime true w).2.requests = w.requests ++ [apiServer ++ "/api/servertime"] ∧
    (getTime false w).2.requests = w.requests ++ ["/api/servertime"] ∧
    (getTime true w).1 = Except.ok (jsGet b "servertime") ∧
    (getTime false w).1 = Except.ok (jsGet b "servertime") := by
  refine ⟨?_, ?_, ?_, ?_⟩ <;> simp [getTime, jsConcatEnv, henv, hok, Except.map]

/-- Witness for C9, with `API_SERVER` set and the endpoint answering
`{"servertime":"noon"}`. -/
theorem c9_gettime_witness :
    wTime.env "API_SERVER" = some "http://myinternalhost:8080" ∧
    httpClientGet (wTime.fetch wTime.fetchCount)
      = Except.ok [("servertime", JsValue.str "noon")] ∧
    ((getTime true wTime).2.requests
       = wTime.requests ++ ["http://myinternalhost:8080" ++ "/api/servertime"] ∧
     (getTime false wTime).2.requests = wTime.requests ++ ["/api/servertime"] ∧
     (getTime true wTime).1
       = Except.ok (jsGet [("servertime", JsValue.str "noon")] "servertime") ∧
     (getTime false wTime).1
       = Except.ok (jsGet [("servertime", JsValue.str "noon")] "servertime")) :=
  ⟨rfl, rfl,
   c9_gettime wTime "http://myinternalhost:8080" [("servertime", JsValue.str "noon")]
     rfl rfl⟩

/-- Claim C10 (confirmed): when the GET of `/config` returns a status other
than 200 the startup routine emits no store write and no bootstrap and
leaves the store unchanged (likewise on a transport failure); the only trace
containing a bootstrap is the 200 trace, in which the write of the fetched
text under the key `config` strictly precedes the bootstrap. -/
theorem c10_bootstrap_order (s : Nat) (bd cause body : String) (st : LocalStorage)
    (hs : s ≠ 200) :
    (mainStartup (FetchOutcome.response s bd) st).1 = [StartupEvent.fetchConfig] ∧
    (mainStartup (FetchOutcome.response s bd) st).2 = st ∧
    (mainStartup (FetchOutcome.networkError cause) st).1 = [StartupEvent.fetchConfig] ∧
    (mainStartup (FetchOutcome.response 200 body) st).1 =
      [StartupEvent.fetchConfig, StartupEvent.storeWrite "config" body,
       StartupEvent.bootstrap] := by
  refine ⟨by simp [mainStartup, hs], by simp [mainStartup, hs], rfl,
    by simp [mainStartup]⟩

/-- Witness for C10, at a 404 response against an empty store. -/
theorem c10_bootstrap_order_witness :
    (404 ≠ 200) ∧
    ((mainStartup (FetchOutcome.response 404 "nope") []).1 = [StartupEvent.fetchConfig] ∧
     (mainStartup (FetchOutcome.response 404 "nope") []).2 = [] ∧
     (mainStartup (FetchOutcome.networkError "offline") []).1 = [StartupEvent.fetchConfig] ∧
     (mainStartup (FetchOutcome.response 200 body300) []).1 =
       [StartupEvent.fetchConfig, StartupEvent.storeWrite "config" body300,
        StartupEvent.bootstrap]) :=
  ⟨by decide, c10_bootstrap_order 404 "nope" "offline" body300 [] (by decide)⟩
